import Mathlib

set_option maxRecDepth 40000

/-!
Shallow embedding of the cache-reconciliation and trend-alerting engine of the
`flask_app_full_reporting` repository (files `utils/cache_utils.py`,
`utils/analysis_utils.py`, `utils/alert_rules.py`, `utils/superset_utils.py`,
`blueprints/api.py`).

Modelling conventions:

* Calendar dates are `YYYY-MM-DD` strings in the source, compared
  lexicographically — an order that agrees with chronological order because the
  format is fixed-width and zero-padded (the source relies on this).  We model
  a date as an `Int` counting days; `datetime` subtraction `(a - b).days`
  becomes integer subtraction and `a + timedelta(days = k)` becomes `a + k`.
* Heterogeneous row cells are modelled by the sum type `Val`.
* Python float arithmetic on percentages is modelled by exact rational
  arithmetic over `ℚ`; the float literal `0.8` is modelled as `4/5`.
* The deduplication key `f"{row[date_key]}|{row[tag_id]}"` is modelled as the
  pair of the two cell values.
* The sqlite/JSON persistence layer is modelled as explicit state passing: a
  stored document is an `Option CacheDoc` argument and the updated stored
  document is part of the returned `MergeResult`; the final `REPLACE INTO`
  statement is modelled as always succeeding.
-/

/-- A single cell of a data row: Python `None`, a string, a `YYYY-MM-DD` date
string (modelled as an integer day count), or a number. -/
inductive Val where
  | null
  | str (s : String)
  | date (d : Int)
  | num (q : ℚ)
deriving DecidableEq

/-- A data row, `ordered sequence of cells` (a JSON array in the cache). -/
abbrev Row := List Val

/-- The integer day count of a date cell.  The source compares
`str(row[date_key_index])` with other date strings lexicographically; for
date-valued cells this is exactly the `Int` order.  Non-date cells are mapped
to day 0 (no claim exercises them in a date position). -/
def dateOf : Val → Int
  | .date d => d
  | _ => 0

/-- Python `row[i] or 0` for a numeric-or-`None` cell: `None` (and any
non-numeric cell) becomes `0`, a number is returned unchanged. -/
def orZero : Val → ℚ
  | .num q => q
  | _ => 0

/-- Python `columns.index(name)`: index of the first occurrence, `none` when
the name is absent (the source's `ValueError`). -/
def colIndex (name : String) : List String → Option Nat
  | [] => none
  | c :: cs => if c = name then some 0 else (colIndex name cs).map (· + 1)

/-- A cached document: `{'columns': [...], 'data': [...]}` as stored under one
cache key. -/
structure CacheDoc where
  columns : List String
  data : List Row
deriving DecidableEq

/-- The observable outcome of one `cache_set_unified` call: `ok` is the Python
return value (`True`/`False`), `doc?` the stored document afterwards, and
`appended` the internal `new_records_added` counter (printed in the success
log, not returned). -/
structure MergeResult where
  ok : Bool
  doc? : Option CacheDoc
  appended : Nat
deriving DecidableEq

/-- The rows of an optional stored document (`[]` when no document exists). -/
def docRows : Option CacheDoc → List Row
  | some d => d.data
  | none => []

/-- The rows stored after a merge call. -/
def storedData (r : MergeResult) : List Row :=
  docRows r.doc?

/-- `validate_data_structure` (`utils/cache_utils.py`): empty column list is
invalid, empty data is valid, and otherwise only the FIRST FIVE rows are
checked to have width `len(columns)`.  (The source's `isinstance(row,
(list, tuple))` check is always true in this model, where every row is a
list.) -/
def validate_data_structure (columns : List String) (data : List Row) : Bool :=
  if columns.isEmpty then false
  else if data.isEmpty then true
  else (data.take 5).all (fun row => row.length == columns.length)

/-- The dedup key `f"{row[date_key_index]}|{row[tag_id_index]}"`, modelled as
the pair of cells. -/
def comboKey (dIdx tIdx : Nat) (row : Row) : Val × Val :=
  (row.getD dIdx Val.null, row.getD tIdx Val.null)

/-- The `existing_combinations` set built from the stored rows: rows long
enough to hold both indexed cells contribute their dedup key. -/
def existingCombos (dIdx tIdx : Nat) (data : List Row) : List (Val × Val) :=
  (data.filter (fun row => max dIdx tIdx < row.length)).map (comboKey dIdx tIdx)

/-- The row loop of `cache_set_unified`: for each incoming row, skip it when it
is too short, dated today or later, or a duplicate combination; otherwise
append it, record its key and count it.  Returns the grown data list, the
grown key set and `new_records_added`. -/
def mergeLoop (dIdx tIdx : Nat) (today : Int) :
    List Row → List Row → List (Val × Val) → Nat → List Row × List (Val × Val) × Nat
  | [], acc, combos, n => (acc, combos, n)
  | row :: rest, acc, combos, n =>
    if row.length ≤ max dIdx tIdx then
      mergeLoop dIdx tIdx today rest acc combos n
    else if today ≤ dateOf (row.getD dIdx Val.null) then
      mergeLoop dIdx tIdx today rest acc combos n
    else if comboKey dIdx tIdx row ∈ combos then
      mergeLoop dIdx tIdx today rest acc combos n
    else
      mergeLoop dIdx tIdx today rest (acc ++ [row]) (comboKey dIdx tIdx row :: combos) (n + 1)

/-- `cache_set_unified` (`utils/cache_utils.py`): validate the batch, load the
existing document (adopting the incoming column list even on mismatch),
resolve the `tag_id`/`date_key` indices (failure returns `False` and leaves
the store untouched), run the dedup/no-future row loop and store the result.
The Python function returns only `True`/`False`; the appended-row counter is
internal. -/
def cache_set_unified (existing : Option CacheDoc) (columns : List String)
    (new_data : List Row) (today : Int) : MergeResult :=
  if validate_data_structure columns new_data = false then
    ⟨false, existing, 0⟩
  else
    match colIndex "tag_id" columns, colIndex "date_key" columns with
    | some tIdx, some dIdx =>
      let base := docRows existing
      let combos := existingCombos dIdx tIdx base
      let out := mergeLoop dIdx tIdx today new_data base combos 0
      ⟨true, some ⟨columns, out.1⟩, out.2.2⟩
    | _, _ => ⟨false, existing, 0⟩

/-- The 14-day chunk loop of `get_date_ranges_to_query`: cover the inclusive
day interval from `s` to `s + n` with ranges of 14 days each, the last one
possibly shorter. -/
def chunkFrom (s : Int) : Nat → List (Int × Int)
  | n + 14 => (s, s + 13) :: chunkFrom (s + 14) n
  | n => [(s, s + (n : Int))]

/-- `get_date_ranges_to_query` (`utils/cache_utils.py`): a range whose end and
start differ by at most 21 days is returned whole; otherwise it is split into
14-day chunks. -/
def get_date_ranges_to_query (date_from date_to : Int) : List (Int × Int) :=
  if date_to - date_from ≤ 21 then [(date_from, date_to)]
  else chunkFrom date_from (date_to - date_from).toNat

/-- The run-grouping loop of `get_date_ranges_to_query_from_dates`: the
carried `end_date` always equals the previously visited date, so a single
accumulator suffices; a gap closes the current `(start, end)` run. -/
def runsAux (start endd : Int) : List Int → List (Int × Int)
  | [] => [(start, endd)]
  | d :: rest =>
    if d - endd = 1 then runsAux start d rest
    else (start, endd) :: runsAux d d rest

/-- `get_date_ranges_to_query_from_dates` (`utils/cache_utils.py`): group the
sorted missing dates into maximal consecutive runs, then chunk each run with
`get_date_ranges_to_query`. -/
def get_date_ranges_to_query_from_dates : List Int → List (Int × Int)
  | [] => []
  | d :: rest =>
    (runsAux d d rest).flatMap (fun r => get_date_ranges_to_query r.1 r.2)

/-- `filter_cache_data_by_date_range` (`utils/superset_utils.py`): with no
`date_key` column the `columns.index` call raises, the handler returns the
data unchanged; a row too short for the date index raises `IndexError` while
the debug section enumerates all row dates, again returning the data
unchanged; `min`/`max` of the empty unique-date list likewise raise on an
empty data list.  Only otherwise is the date-range filter applied. -/
def filter_cache_data_by_date_range (columns : List String) (data : List Row)
    (date_from date_to : Int) : List Row :=
  match colIndex "date_key" columns with
  | none => data
  | some i =>
    if data.isEmpty then data
    else if data.any (fun row => row.length ≤ i) then data
    else data.filter (fun row =>
      date_from ≤ dateOf (row.getD i Val.null) ∧ dateOf (row.getD i Val.null) ≤ date_to)

/-- An alert record produced by `generate_comprehensive_alerts`
(`utils/analysis_utils.py`).  The purely presentational `message` and
`comparison_date`/week-range strings of the source dictionaries are omitted;
`days_gap` is `some` exactly for the gap-tolerant alerts that carry the
`days_gap` entry. -/
structure Alert where
  tag_id : Val
  tag_name : String
  metric : String
  date : Int
  current_value : ℚ
  previous_value : ℚ
  change_percent : ℚ
  severity : String
  alert_type : String
  days_gap : Option Int
deriving DecidableEq

/-- The drop percentage `((previous - current) / previous) * 100`. -/
def dropPct (prev cur : ℚ) : ℚ :=
  (prev - cur) / prev * 100

/-- The increase percentage `((current - previous) / previous) * 100`. -/
def incPct (prev cur : ℚ) : ℚ :=
  (cur - prev) / prev * 100

/-- Stable insertion of a row into a list sorted descending by the date cell:
the row goes in front of the first element whose date is not larger, so equal
dates keep their original relative order. -/
def insertDescByDate (dIdx : Nat) (row : Row) : List Row → List Row
  | [] => [row]
  | r :: rs =>
    if dateOf (r.getD dIdx Val.null) ≤ dateOf (row.getD dIdx Val.null) then
      row :: r :: rs
    else r :: insertDescByDate dIdx row rs

/-- Python `tag_data.sort(key=lambda x: x[date_key_index], reverse=True)`:
a stable descending sort by the date cell. -/
def sortDescByDate (dIdx : Nat) : List Row → List Row
  | [] => []
  | r :: rs => insertDescByDate dIdx r (sortDescByDate dIdx rs)

/-- The best-effort tag-name resolution of the per-tag loop: a non-empty
(stripped) string in the `tag_name` cell of the newest row wins, otherwise a
`Tag <id>` label truncating ids longer than 8 characters.  (A non-string id
would raise in the source; the claims only exercise string ids.) -/
def bestTagName (tagNameIdx? : Option Nat) (tIdx : Nat) (sorted : List Row) : String :=
  let top := sorted.getD 0 []
  let fallback :=
    match top.getD tIdx Val.null with
    | .str s => if 8 < s.length then "Tag " ++ s.take 8 ++ "..." else "Tag " ++ s
    | _ => "Tag ?"
  match tagNameIdx? with
  | some nIdx =>
    match top.getD nIdx Val.null with
    | .str s => if s = "" then fallback else if s.trim = "" then fallback else s.trim
    | _ => fallback
  | none => fallback

/-- Strategy 1 of the per-tag loop: the day-over-day comparison of the newest
row against the second-newest, requiring exactly one day of difference, a
previous value above the 2500 floor, an actual drop, and a drop percentage at
least `day_threshold`. -/
def day_over_day_alerts (dIdx tIdx iIdx : Nat) (name : String) (dayT : ℚ)
    (sorted : List Row) : List Alert :=
  let top := sorted.getD 0 []
  let row1 := sorted.getD 1 []
  let cur := orZero (top.getD iIdx Val.null)
  let curD := dateOf (top.getD dIdx Val.null)
  let prev := orZero (row1.getD iIdx Val.null)
  let prevD := dateOf (row1.getD dIdx Val.null)
  if curD - prevD = 1 ∧ 2500 < prev then
    if cur < prev then
      if dayT ≤ dropPct prev cur then
        [{ tag_id := top.getD tIdx Val.null
           tag_name := name
           metric := "total_impressions"
           date := curD
           current_value := cur
           previous_value := prev
           change_percent := -dropPct prev cur
           severity :=
             if 50 ≤ dropPct prev cur then "high"
             else if 35 ≤ dropPct prev cur then "medium" else "low"
           alert_type := "day_over_day"
           days_gap := none }]
      else []
    else []
  else []

/-- The window sum of the week-over-week strategy: filter the tag's rows to
dates in `lo‥hi` (the Python list comprehension) and sum the metric values. -/
def week_window_total (dIdx iIdx : Nat) (lo hi : Int) (sorted : List Row) : ℚ :=
  ((sorted.filter (fun row =>
      lo ≤ dateOf (row.getD dIdx Val.null) ∧ dateOf (row.getD dIdx Val.null) ≤ hi)).map
    (fun row => orZero (row.getD iIdx Val.null))).sum

/-- Strategy 2 of the per-tag loop: cumulative week-over-week comparison of
the trailing 7-day window against the preceding one; a drop and an increase
are the two branches of one `if`/`elif`. -/
def week_over_week_alerts (dIdx tIdx iIdx : Nat) (name : String)
    (weekT weekIncT : ℚ) (sorted : List Row) : List Alert :=
  let top := sorted.getD 0 []
  let curD := dateOf (top.getD dIdx Val.null)
  let curTot := week_window_total dIdx iIdx (curD - 6) curD sorted
  let prevTot := week_window_total dIdx iIdx (curD - 13) (curD - 7) sorted
  if 2500 < prevTot then
    if curTot < prevTot then
      if weekT ≤ dropPct prevTot curTot then
        [{ tag_id := top.getD tIdx Val.null
           tag_name := name
           metric := "total_impressions"
           date := curD
           current_value := curTot
           previous_value := prevTot
           change_percent := -dropPct prevTot curTot
           severity :=
             if 40 ≤ dropPct prevTot curTot then "high"
             else if 25 ≤ dropPct prevTot curTot then "medium" else "low"
           alert_type := "week_over_week"
           days_gap := none }]
      else []
    else if prevTot < curTot then
      if weekIncT ≤ incPct prevTot curTot then
        [{ tag_id := top.getD tIdx Val.null
           tag_name := name
           metric := "total_impressions"
           date := curD
           current_value := curTot
           previous_value := prevTot
           change_percent := incPct prevTot curTot
           severity :=
             if 50 ≤ incPct prevTot curTot then "high"
             else if 35 ≤ incPct prevTot curTot then "medium" else "low"
           alert_type := "week_over_week_increase"
           days_gap := none }]
      else []
    else []
  else []

/-- Strategy 3's scan over the candidate indices `1, 2, 3`: the first row
within a 1–3 day gap whose value exceeds the floor stops the scan (`break`),
producing an alert only when the drop percentage reaches `0.8 *
day_threshold`; non-qualifying rows are skipped and the scan continues. -/
def gapLoop (dIdx tIdx iIdx : Nat) (name : String) (dayT : ℚ)
    (sorted : List Row) : List Nat → List Alert
  | [] => []
  | i :: rest =>
    let top := sorted.getD 0 []
    let cur := orZero (top.getD iIdx Val.null)
    let curD := dateOf (top.getD dIdx Val.null)
    let prevRow := sorted.getD i []
    let prev := orZero (prevRow.getD iIdx Val.null)
    let prevD := dateOf (prevRow.getD dIdx Val.null)
    if 1 ≤ curD - prevD ∧ curD - prevD ≤ 3 ∧ 2500 < prev then
      if cur < prev then
        if dayT * (4 / 5) ≤ dropPct prev cur then
          [{ tag_id := top.getD tIdx Val.null
             tag_name := name
             metric := "total_impressions"
             date := curD
             current_value := cur
             previous_value := prev
             change_percent := -dropPct prev cur
             severity :=
               if 50 ≤ dropPct prev cur then "high"
               else if 35 ≤ dropPct prev cur then "medium" else "low"
             alert_type := "gap_tolerant"
             days_gap := some (curD - prevD) }]
        else []
      else []
    else gapLoop dIdx tIdx iIdx name dayT sorted rest

/-- Strategy 3 of the per-tag loop: gap-tolerant day-over-day, scanning
`range(1, min(4, len(tag_data)))`, i.e. at most the indices `1, 2, 3`. -/
def gap_tolerant_alerts (dIdx tIdx iIdx : Nat) (name : String) (dayT : ℚ)
    (sorted : List Row) : List Alert :=
  gapLoop dIdx tIdx iIdx name dayT sorted (List.range' 1 (min 3 (sorted.length - 1)))

/-- The body of the per-tag loop of `generate_comprehensive_alerts`: groups
with fewer than 2 rows are skipped, otherwise the group is sorted descending
by date and the three strategies run in order (day-over-day, week-over-week,
gap-tolerant), each appending to the alert list; with no `total_impressions`
column none of the strategies runs. -/
def tag_alerts (dIdx tIdx : Nat) (tagNameIdx? impIdx? : Option Nat)
    (dayT weekT weekIncT : ℚ) (g : List Row) : List Alert :=
  if g.length < 2 then []
  else
    let sorted := sortDescByDate dIdx g
    let name := bestTagName tagNameIdx? tIdx sorted
    match impIdx? with
    | none => []
    | some iIdx =>
      day_over_day_alerts dIdx tIdx iIdx name dayT sorted
        ++ week_over_week_alerts dIdx tIdx iIdx name weekT weekIncT sorted
        ++ gap_tolerant_alerts dIdx tIdx iIdx name dayT sorted

/-- The tag keys of the rows in first-appearance order (Python dict insertion
order). -/
def groupKeys (tIdx : Nat) (rows : List Row) : List Val :=
  rows.foldl
    (fun ks row =>
      if row.getD tIdx Val.null ∈ ks then ks else ks ++ [row.getD tIdx Val.null])
    []

/-- `generate_comprehensive_alerts` (`utils/analysis_utils.py`): resolve the
required `date_key`/`tag_id` columns (returning `[]` when absent), drop rows
dated today or later, require at least 2 remaining rows, group by tag in
first-appearance order and run the per-tag strategies. -/
def generate_comprehensive_alerts (daily_data : List Row) (columns : List String)
    (day_threshold week_threshold week_increase_threshold : ℚ) (today : Int) :
    List Alert :=
  match colIndex "date_key" columns, colIndex "tag_id" columns with
  | some dIdx, some tIdx =>
    let tagNameIdx? := colIndex "tag_name" columns
    let impIdx? := colIndex "total_impressions" columns
    let filtered := daily_data.filter (fun row => dateOf (row.getD dIdx Val.null) < today)
    if filtered.length < 2 then []
    else
      (groupKeys tIdx filtered).flatMap (fun t =>
        tag_alerts dIdx tIdx tagNameIdx? impIdx?
          day_threshold week_threshold week_increase_threshold
          (filtered.filter (fun row => row.getD tIdx Val.null == t)))
  | _, _ => []

/-- The alert-rule configuration document (`utils/alert_rules.py`): only the
parts consumed by `get_threshold_for_tag` are modelled — the per-tag
`thresholds` mapping and the `global_thresholds` mapping, both as association
lists. -/
structure AlertRulesCfg where
  tag_specific_rules : List (String × List (String × ℚ))
  global_thresholds : List (String × ℚ)
deriving DecidableEq

/-- Lookup in an association list (Python `dict` access / `in`). -/
def lookupQ (k : String) (l : List (String × ℚ)) : Option ℚ :=
  (l.find? (fun p => p.1 == k)).map (fun p => p.2)

/-- The global-threshold fallback of `get_threshold_for_tag`: the
`threshold_map` built with per-key defaults, then `.get(alert_type, 35)`. -/
def globalThreshold (cfg : AlertRulesCfg) (alert_type : String) : ℚ :=
  if alert_type = "day_over_day" then
    (lookupQ "day_over_day_drop" cfg.global_thresholds).getD 35
  else if alert_type = "week_over_week" then
    (lookupQ "week_over_week_drop" cfg.global_thresholds).getD 20
  else if alert_type = "week_over_week_increase" then
    (lookupQ "week_over_week_increase" cfg.global_thresholds).getD 25
  else if alert_type = "gap_tolerant" then
    (lookupQ "gap_tolerant_drop" cfg.global_thresholds).getD 28
  else 35

/-- `AlertRules.get_threshold_for_tag`: a tag-specific threshold for the alert
type wins; otherwise the global threshold map with hardcoded fallback 35. -/
def get_threshold_for_tag (cfg : AlertRulesCfg) (tag_id alert_type : String) : ℚ :=
  match (cfg.tag_specific_rules.find? (fun p => p.1 == tag_id)).map (fun p => p.2) with
  | some th =>
    match lookupQ alert_type th with
    | some t => t
    | none => globalThreshold cfg alert_type
  | none => globalThreshold cfg alert_type

/-- The `default_rules["global_thresholds"]` literal of `_load_rules`. -/
def default_global_thresholds : List (String × ℚ) :=
  [("day_over_day_drop", 35), ("week_over_week_drop", 20),
   ("week_over_week_increase", 25), ("gap_tolerant_drop", 28),
   ("minimum_impressions", 2500)]

/-- The default rule set (`_load_rules` with no rules file). -/
def defaultAlertRules : AlertRulesCfg :=
  ⟨[], default_global_thresholds⟩

/-- The alert-generation path of `blueprints/api.py` (the `/alerts` endpoint,
also `blueprints/main.py`): it calls
`generate_comprehensive_alerts(cache_object['data'], cache_object['columns'])`
with the DEFAULT thresholds 35/20/25 and never consults `AlertRules`. -/
def api_alerts_for_cache (doc : CacheDoc) (today : Int) : List Alert :=
  generate_comprehensive_alerts doc.data doc.columns 35 20 25 today

/-! Concrete inputs used to exercise the definitions in the claims below. -/

/-- Column layout shared by the alert-engine examples. -/
def exCols : List String := ["date_key", "tag_id", "total_impressions"]

/-- Column layout shared by the merge examples. -/
def mergeCols : List String := ["date_key", "tag_id"]

/-- A two-row batch of novel past-dated rows. -/
def c1batch : List Row :=
  [[Val.date 1, Val.str "a"], [Val.date 2, Val.str "a"]]

/-- Five well-formed rows followed by a sixth row of width 3 (columns have
width 2): the width mismatch sits beyond the five rows that
`validate_data_structure` inspects. -/
def c2batch : List Row :=
  [[Val.date 1, Val.str "t"], [Val.date 2, Val.str "t"], [Val.date 3, Val.str "t"],
   [Val.date 4, Val.str "t"], [Val.date 5, Val.str "t"],
   [Val.date 6, Val.str "t", Val.str "extra"]]

/-- The mismatched sixth row of `c2batch`. -/
def c2badRow : Row := [Val.date 6, Val.str "t", Val.str "extra"]

/-- A single row of width 3 against width-2 columns: a mismatch within the
first five rows. -/
def c2batchFirst : List Row := [[Val.date 1, Val.str "t", Val.str "extra"]]

/-- A rule set with a tag-specific `day_over_day` threshold of 10 for `T1`. -/
def cfgOverride : AlertRulesCfg :=
  ⟨[("T1", [("day_over_day", 10)])], default_global_thresholds⟩

/-- Tag `T1` with a 15% day-over-day drop (4000 → 3400) on consecutive days,
previous value above the 2500 floor; today is day 101. -/
def c3rows : List Row :=
  [[Val.date 100, Val.str "T1", Val.num 3400], [Val.date 99, Val.str "T1", Val.num 4000]]

/-- A batch with one future-dated row (day 150) and one past row (day 5),
merged with today = 100. -/
def c4batch : List Row :=
  [[Val.date 150, Val.str "a"], [Val.date 5, Val.str "a"]]

/-- The spec's day-over-day example: yesterday = 1000 against
day-before = 2000. -/
def c6badRows : List Row :=
  [[Val.date 100, Val.str "T1", Val.num 1000], [Val.date 99, Val.str "T1", Val.num 2000]]

/-- A floor-respecting day-over-day example: yesterday = 2000 against
day-before = 4000 (a 50% drop). -/
def c6rows : List Row :=
  [[Val.date 100, Val.str "T1", Val.num 2000], [Val.date 99, Val.str "T1", Val.num 4000]]

/-- The gap-tolerant example: current value 1000, a 2-day-old prior value
3000, no 1-day-old row. -/
def c7rows : List Row :=
  [[Val.date 100, Val.str "T1", Val.num 1000], [Val.date 98, Val.str "T1", Val.num 3000]]

/-- The week-over-week example: trailing 7-day sum 8000 (days 100 and 95),
preceding 7-day sum 12000 (days 93 and 88). -/
def c8rows : List Row :=
  [[Val.date 100, Val.str "T1", Val.num 4000], [Val.date 95, Val.str "T1", Val.num 4000],
   [Val.date 93, Val.str "T1", Val.num 6000], [Val.date 88, Val.str "T1", Val.num 6000]]

/-- The 40 consecutive missing dates 0‥39. -/
def c9run : List Int := (List.range 40).map (fun k => (k : Int))

/-- Columns without a `date_key` entry. -/
def c10cols : List String := ["ds", "tag_id"]

/-- A single row whose first cell is day 20 — outside the requested
range 5‥10 of the claim-C10 witness. -/
def c10data : List Row := [[Val.date 20, Val.str "T"]]

/-! Supporting lemmas about the merge loop. -/

/-- The key set built from concatenated data splits over the concatenation. -/
theorem existingCombos_append (dIdx tIdx : Nat) (a b : List Row) :
    existingCombos dIdx tIdx (a ++ b) =
      existingCombos dIdx tIdx a ++ existingCombos dIdx tIdx b := by
  simp [existingCombos, List.filter_append]

/-- Every row appended by the merge loop is dated strictly before today, so
the loop preserves the all-past-dates invariant of the accumulator. -/
theorem mergeLoop_dates (dIdx tIdx : Nat) (today : Int) (batch : List Row) :
    ∀ acc combos n, (∀ row ∈ acc, dateOf (row.getD dIdx Val.null) < today) →
      ∀ row ∈ (mergeLoop dIdx tIdx today batch acc combos n).1,
        dateOf (row.getD dIdx Val.null) < today := by
  induction batch with
  | nil => intro acc combos n h; simpa [mergeLoop] using h
  | cons r rest ih =>
    intro acc combos n h
    simp only [mergeLoop]
    split_ifs with h1 h2 h3
    · exact ih acc combos n h
    · exact ih acc combos n h
    · exact ih acc combos n h
    · apply ih
      intro row hrow
      rcases List.mem_append.mp hrow with hmem | hmem
      · exact h row hmem
      · rw [List.mem_singleton.mp hmem]
        exact lt_of_not_le h2

/-- The merge loop only grows the key set. -/
theorem mergeLoop_combos_mono (dIdx tIdx : Nat) (today : Int) (batch : List Row) :
    ∀ acc combos n, combos ⊆ (mergeLoop dIdx tIdx today batch acc combos n).2.1 := by
  induction batch with
  | nil => intro acc combos n; simp [mergeLoop]
  | cons r rest ih =>
    intro acc combos n
    simp only [mergeLoop]
    split_ifs with h1 h2 h3
    · exact ih acc combos n
    · exact ih acc combos n
    · exact ih acc combos n
    · exact fun k hk =>
        ih (acc ++ [r]) (comboKey dIdx tIdx r :: combos) (n + 1)
          (List.mem_cons_of_mem _ hk)

/-- After the loop, the key of every wide-enough, past-dated batch row is in
the final key set (it was either already there or added on append). -/
theorem mergeLoop_covers (dIdx tIdx : Nat) (today : Int) (batch : List Row) :
    ∀ acc combos n, ∀ row ∈ batch, max dIdx tIdx < row.length →
      dateOf (row.getD dIdx Val.null) < today →
      comboKey dIdx tIdx row ∈ (mergeLoop dIdx tIdx today batch acc combos n).2.1 := by
  induction batch with
  | nil => intro acc combos n row hrow; exact absurd hrow (List.not_mem_nil _)
  | cons r rest ih =>
    intro acc combos n row hrow hlen hdate
    rcases List.mem_cons.mp hrow with rfl | hmem
    · simp only [mergeLoop]
      split_ifs with h1 h2 h3
      · exact absurd hlen (not_lt.mpr h1)
      · exact absurd hdate (not_lt.mpr h2)
      · exact mergeLoop_combos_mono dIdx tIdx today rest acc combos n h3
      · exact mergeLoop_combos_mono dIdx tIdx today rest _ _ _ (List.mem_cons_self _ _)
    · simp only [mergeLoop]
      split_ifs with h1 h2 h3
      · exact ih acc combos n row hmem hlen hdate
      · exact ih acc combos n row hmem hlen hdate
      · exact ih acc combos n row hmem hlen hdate
      · exact ih _ _ _ row hmem hlen hdate

/-- The key set carried by the loop stays inside the key set of the grown
data list. -/
theorem mergeLoop_combos_sub (dIdx tIdx : Nat) (today : Int) (batch : List Row) :
    ∀ acc combos n, combos ⊆ existingCombos dIdx tIdx acc →
      (mergeLoop dIdx tIdx today batch acc combos n).2.1 ⊆
        existingCombos dIdx tIdx (mergeLoop dIdx tIdx today batch acc combos n).1 := by
  induction batch with
  | nil => intro acc combos n h; simpa [mergeLoop] using h
  | cons r rest ih =>
    intro acc combos n h
    simp only [mergeLoop]
    split_ifs with h1 h2 h3
    · exact ih acc combos n h
    · exact ih acc combos n h
    · exact ih acc combos n h
    · apply ih
      intro k hk
      rw [existingCombos_append]
      rcases List.mem_cons.mp hk with rfl | hk2
      · refine List.mem_append.mpr (Or.inr ?_)
        rcases sup_lt_iff.mp (lt_of_not_le h1) with ⟨ha, hb⟩
        simp only [existingCombos, List.mem_map, List.mem_filter]
        exact ⟨r, ⟨List.mem_singleton_self r, by simpa using And.intro ha hb⟩, rfl⟩
      · exact List.mem_append.mpr (Or.inl (h hk2))

/-- When every wide-enough, past-dated batch row already has its key in the
key set, the loop appends nothing and counts nothing. -/
theorem mergeLoop_noop (dIdx tIdx : Nat) (today : Int) (batch : List Row) :
    ∀ acc combos n, (∀ row ∈ batch, max dIdx tIdx < row.length →
        dateOf (row.getD dIdx Val.null) < today →
        comboKey dIdx tIdx row ∈ combos) →
      mergeLoop dIdx tIdx today batch acc combos n = (acc, combos, n) := by
  induction batch with
  | nil => intro acc combos n _; simp [mergeLoop]
  | cons r rest ih =>
    intro acc combos n h
    simp only [mergeLoop]
    split_ifs with h1 h2 h3
    · exact ih acc combos n (fun row hm => h row (List.mem_cons_of_mem _ hm))
    · exact ih acc combos n (fun row hm => h row (List.mem_cons_of_mem _ hm))
    · exact ih acc combos n (fun row hm => h row (List.mem_cons_of_mem _ hm))
    · exact absurd (h r (List.mem_cons_self _ _) (lt_of_not_le h1) (lt_of_not_le h2)) h3

/-! Supporting lemmas about the alert strategies. -/

/-- Filtering by an alert type keeps a list all of whose alerts have it. -/
theorem filter_type_self (ty : String) (l : List Alert)
    (h : ∀ a ∈ l, a.alert_type = ty) :
    l.filter (fun a => a.alert_type == ty) = l := by
  induction l with
  | nil => rfl
  | cons a l ih =>
    rw [List.filter_cons, if_pos]
    · rw [ih (fun b hb => h b (List.mem_cons_of_mem _ hb))]
    · rw [h a (List.mem_cons_self _ _)]
      exact beq_self_eq_true ty

/-- Filtering by an alert type drops a list none of whose alerts have it. -/
theorem filter_type_nil (ty : String) (l : List Alert)
    (h : ∀ a ∈ l, a.alert_type ≠ ty) :
    l.filter (fun a => a.alert_type == ty) = [] := by
  induction l with
  | nil => rfl
  | cons a l ih =>
    rw [List.filter_cons, if_neg]
    · exact ih (fun b hb => h b (List.mem_cons_of_mem _ hb))
    · simpa using h a (List.mem_cons_self _ _)

/-- Every day-over-day alert is tagged `day_over_day`. -/
theorem day_alert_type (dIdx tIdx iIdx : Nat) (name : String) (dayT : ℚ)
    (sorted : List Row) :
    ∀ a ∈ day_over_day_alerts dIdx tIdx iIdx name dayT sorted,
      a.alert_type = "day_over_day" := by
  intro a ha
  simp only [day_over_day_alerts] at ha
  split_ifs at ha <;> first
  | (simp at ha; subst ha; rfl)
  | simp at ha

/-- Every week-over-week alert is tagged `week_over_week` or
`week_over_week_increase`. -/
theorem week_alert_type (dIdx tIdx iIdx : Nat) (name : String)
    (weekT weekIncT : ℚ) (sorted : List Row) :
    ∀ a ∈ week_over_week_alerts dIdx tIdx iIdx name weekT weekIncT sorted,
      a.alert_type = "week_over_week" ∨ a.alert_type = "week_over_week_increase" := by
  intro a ha
  simp only [week_over_week_alerts] at ha
  split_ifs at ha <;> first
  | (simp at ha; subst ha; simp)
  | simp at ha

/-- Every alert produced by the gap scan is tagged `gap_tolerant`. -/
theorem gapLoop_alert_type (dIdx tIdx iIdx : Nat) (name : String) (dayT : ℚ)
    (sorted : List Row) (l : List Nat) :
    ∀ a ∈ gapLoop dIdx tIdx iIdx name dayT sorted l,
      a.alert_type = "gap_tolerant" := by
  induction l with
  | nil => intro a ha; exact absurd ha (List.not_mem_nil _)
  | cons i rest ih =>
    intro a ha
    simp only [gapLoop] at ha
    split_ifs at ha <;> first
    | exact ih a ha
    | (simp at ha; subst ha; rfl)
    | simp at ha

/-- A drop percentage reaching a positive threshold forces an actual drop
(the previous value being positive). -/
theorem lt_of_le_dropPct (prev cur t : ℚ) (hp : 0 < prev) (ht : 0 < t)
    (h : t ≤ dropPct prev cur) : cur < prev := by
  by_contra hc
  push_neg at hc
  have h2 : prev - cur ≤ 0 := by linarith
  have h3 : (prev - cur) / prev ≤ 0 := div_nonpos_iff.mpr (Or.inr ⟨h2, hp.le⟩)
  have h4 : dropPct prev cur ≤ 0 := by
    unfold dropPct
    nlinarith
  linarith

/-- Counting by an alert type over a list with no alert of that type gives
zero. -/
theorem countP_type_zero (ty : String) (l : List Alert)
    (h : ∀ a ∈ l, a.alert_type ≠ ty) :
    l.countP (fun a => a.alert_type == ty) = 0 := by
  rw [List.countP_eq_zero]
  intro a ha
  simpa using h a ha

/-- The gap scan is the first qualifying candidate in the index list: skip
candidates outside the 1–3 day window or at or below the floor, and stop at
the first one inside it. -/
theorem gapLoop_eq_find (dIdx tIdx iIdx : Nat) (name : String) (dayT : ℚ)
    (sorted : List Row) (l : List Nat) :
    gapLoop dIdx tIdx iIdx name dayT sorted l =
      (match l.find? (fun i =>
          decide (1 ≤ dateOf ((sorted.getD 0 []).getD dIdx Val.null) -
              dateOf ((sorted.getD i []).getD dIdx Val.null) ∧
            dateOf ((sorted.getD 0 []).getD dIdx Val.null) -
              dateOf ((sorted.getD i []).getD dIdx Val.null) ≤ 3 ∧
            2500 < orZero ((sorted.getD i []).getD iIdx Val.null))) with
      | none => []
      | some i => gapLoop dIdx tIdx iIdx name dayT sorted [i]) := by
  induction l with
  | nil => rfl
  | cons i rest ih =>
    by_cases hq : (1 ≤ dateOf ((sorted.getD 0 []).getD dIdx Val.null) -
          dateOf ((sorted.getD i []).getD dIdx Val.null) ∧
        dateOf ((sorted.getD 0 []).getD dIdx Val.null) -
          dateOf ((sorted.getD i []).getD dIdx Val.null) ≤ 3 ∧
        2500 < orZero ((sorted.getD i []).getD iIdx Val.null))
    · rw [List.find?_cons_of_pos _ (by simpa using hq)]
      simp only [gapLoop, if_pos hq]
    · rw [List.find?_cons_of_neg _ (by simpa using hq)]
      rw [← ih]
      simp only [gapLoop, if_neg hq]

/-! Supporting lemmas about the 14-day chunk loop. -/

/-- A remaining span of fewer than 14 days yields a single final range. -/
theorem chunkFrom_low (s : Int) (n : Nat) (h : n < 14) :
    chunkFrom s n = [(s, s + (n : Int))] := by
  interval_cases n <;> rfl

/-- A remaining span of at least 14 days yields a full 14-day range and
recurses. -/
theorem chunkFrom_high (s : Int) (m : Nat) :
    chunkFrom s (m + 14) = (s, s + 13) :: chunkFrom (s + 14) m := rfl

/-- The chunk loop always yields at least one range. -/
theorem chunkFrom_ne_nil (s : Int) (n : Nat) : chunkFrom s n ≠ [] := by
  rcases Nat.lt_or_ge n 14 with h | h
  · simp [chunkFrom_low s n h]
  · obtain ⟨m, rfl⟩ : ∃ m, n = m + 14 := ⟨n - 14, by omega⟩
    simp [chunkFrom_high]

/-- Every produced range starts at or after the loop's start day. -/
theorem chunkFrom_fst_ge (n : Nat) :
    ∀ s : Int, ∀ r ∈ chunkFrom s n, s ≤ r.1 := by
  induction n using Nat.strong_induction_on with
  | _ n ih =>
    intro s r hr
    rcases Nat.lt_or_ge n 14 with h | h
    · rw [chunkFrom_low s n h] at hr
      rw [List.mem_singleton.mp hr]
    · obtain ⟨m, rfl⟩ : ∃ m, n = m + 14 := ⟨n - 14, by omega⟩
      rw [chunkFrom_high] at hr
      rcases List.mem_cons.mp hr with rfl | hm
      · exact le_refl s
      · have := ih m (by omega) (s + 14) r hm
        omega

/-- The produced ranges cover exactly the days from `s` to `s + n`. -/
theorem chunkFrom_cover (n : Nat) :
    ∀ s d : Int,
      (∃ r ∈ chunkFrom s n, r.1 ≤ d ∧ d ≤ r.2) ↔ s ≤ d ∧ d ≤ s + n := by
  induction n using Nat.strong_induction_on with
  | _ n ih =>
    intro s d
    rcases Nat.lt_or_ge n 14 with h | h
    · rw [chunkFrom_low s n h]
      simp
    · obtain ⟨m, rfl⟩ : ∃ m, n = m + 14 := ⟨n - 14, by omega⟩
      rw [chunkFrom_high]
      have ihm := ih m (by omega) (s + 14) d
      constructor
      · rintro ⟨r, hr, h1, h2⟩
        rcases List.mem_cons.mp hr with rfl | hm
        · simp at h1 h2
          push_cast
          omega
        · have := ihm.mp ⟨r, hm, h1, h2⟩
          push_cast
          omega
      · rintro ⟨h1, h2⟩
        by_cases hd : d ≤ s + 13
        · exact ⟨(s, s + 13), List.mem_cons_self _ _, h1, hd⟩
        · push_cast at h2
          obtain ⟨r, hm, hp⟩ := ihm.mpr ⟨by omega, by omega⟩
          exact ⟨r, List.mem_cons_of_mem _ hm, hp⟩

/-- The produced ranges are pairwise disjoint (each ends strictly before the
next begins). -/
theorem chunkFrom_pairwise (n : Nat) :
    ∀ s : Int, (chunkFrom s n).Pairwise (fun a b => a.2 < b.1) := by
  induction n using Nat.strong_induction_on with
  | _ n ih =>
    intro s
    rcases Nat.lt_or_ge n 14 with h | h
    · rw [chunkFrom_low s n h]
      simp
    · obtain ⟨m, rfl⟩ : ∃ m, n = m + 14 := ⟨n - 14, by omega⟩
      rw [chunkFrom_high, List.pairwise_cons]
      refine ⟨fun r hm => ?_, ih m (by omega) (s + 14)⟩
      have := chunkFrom_fst_ge m (s + 14) r hm
      simp only []
      omega

/-- Every range except the last spans exactly 14 days. -/
theorem chunkFrom_dropLast (n : Nat) :
    ∀ s : Int, ∀ r ∈ (chunkFrom s n).dropLast, r.2 - r.1 + 1 = 14 := by
  induction n using Nat.strong_induction_on with
  | _ n ih =>
    intro s r hr
    rcases Nat.lt_or_ge n 14 with h | h
    · rw [chunkFrom_low s n h] at hr
      simp at hr
    · obtain ⟨m, rfl⟩ : ∃ m, n = m + 14 := ⟨n - 14, by omega⟩
      rw [chunkFrom_high] at hr
      obtain ⟨b, t, hbt⟩ := List.exists_cons_of_ne_nil (chunkFrom_ne_nil (s + 14) m)
      rw [hbt] at hr
      simp only [List.dropLast_cons₂] at hr
      rcases List.mem_cons.mp hr with rfl | hm
      · simp
      · rw [← hbt] at hm
        exact ih m (by omega) (s + 14) r hm

/-- The last range spans at most 14 days. -/
theorem chunkFrom_getLast (n : Nat) :
    ∀ (s : Int) (r : Int × Int), (chunkFrom s n).getLast? = some r →
      r.2 - r.1 + 1 ≤ 14 := by
  induction n using Nat.strong_induction_on with
  | _ n ih =>
    intro s r hr
    rcases Nat.lt_or_ge n 14 with h | h
    · rw [chunkFrom_low s n h] at hr
      simp at hr
      rw [← hr]
      push_cast
      omega
    · obtain ⟨m, rfl⟩ : ∃ m, n = m + 14 := ⟨n - 14, by omega⟩
      rw [chunkFrom_high] at hr
      obtain ⟨b, t, hbt⟩ := List.exists_cons_of_ne_nil (chunkFrom_ne_nil (s + 14) m)
      rw [hbt, List.getLast?_cons_cons, ← hbt] at hr
      exact ih m (by omega) (s + 14) r hr

/-! Claim theorems. -/

/-- Claim C1, counterexample: `cache_set_unified` does not return the count of
appended rows — two merges of the same batch append 2 and then 0 rows, yet
both return the same value (`True`), so the return value is merely a
success/failure indicator. -/
theorem C1_counterexample :
    (cache_set_unified none mergeCols c1batch 100).appended = 2 ∧
    (cache_set_unified (cache_set_unified none mergeCols c1batch 100).doc?
      mergeCols c1batch 100).appended = 0 ∧
    (cache_set_unified none mergeCols c1batch 100).ok =
      (cache_set_unified (cache_set_unified none mergeCols c1batch 100).doc?
        mergeCols c1batch 100).ok := by
  decide

/-- Claim C1, amended: every merge call with valid structure (and the required
`tag_id`/`date_key` columns present) returns the boolean `True` — a pure
success indicator, independent of how many rows were appended; the appended
count is only computed internally. -/
theorem C1_merge_returns_bool (existing : Option CacheDoc) (columns : List String)
    (batch : List Row) (today : Int) (tIdx dIdx : Nat)
    (hv : validate_data_structure columns batch = true)
    (ht : colIndex "tag_id" columns = some tIdx)
    (hd : colIndex "date_key" columns = some dIdx) :
    (cache_set_unified existing columns batch today).ok = true := by
  simp [cache_set_unified, hv, ht, hd]

/-- Claim C1, witness: the all-duplicate second merge (which appends 0 rows)
still returns `True`. -/
theorem C1_merge_returns_bool_witness :
    (cache_set_unified (cache_set_unified none mergeCols c1batch 100).doc?
      mergeCols c1batch 100).ok = true :=
  C1_merge_returns_bool _ mergeCols c1batch 100 1 0 (by decide) (by decide) (by decide)

/-- Claim C2, counterexample: a batch whose sixth row has width 3 against
2 columns passes validation (only the first five rows are checked), the merge
reports success and appends all six rows — including the mismatched one —
instead of rejecting the batch. -/
theorem C2_counterexample :
    c2badRow ∈ c2batch ∧ c2badRow.length ≠ mergeCols.length ∧
    (cache_set_unified none mergeCols c2batch 100).ok = true ∧
    (cache_set_unified none mergeCols c2batch 100).appended = 6 ∧
    c2badRow ∈ storedData (cache_set_unified none mergeCols c2batch 100) := by
  decide

/-- Claim C2, amended: a width mismatch among the FIRST FIVE rows of the batch
makes the merge fail and leave the stored document untouched; mismatches
beyond the fifth row are not detected. -/
theorem C2_first_five_validation (existing : Option CacheDoc) (columns : List String)
    (batch : List Row) (today : Int)
    (hbad : ∃ row ∈ batch.take 5, row.length ≠ columns.length) :
    (cache_set_unified existing columns batch today).ok = false ∧
    (cache_set_unified existing columns batch today).doc? = existing := by
  obtain ⟨row, hmem, hne⟩ := hbad
  have hval : validate_data_structure columns batch = false := by
    have hne2 : batch.take 5 ≠ [] := List.ne_nil_of_mem hmem
    have hb2 : batch.isEmpty = false := by
      cases hbe : batch with
      | nil => rw [hbe] at hne2; simp at hne2
      | cons a l => rfl
    have hall : (batch.take 5).all (fun row => row.length == columns.length) = false := by
      rw [List.all_eq_false]
      exact ⟨row, hmem, by simpa using hne⟩
    by_cases hc : columns.isEmpty
    · simp [validate_data_structure, hc]
    · simp [validate_data_structure, hc, hb2, hall]
  constructor <;> simp [cache_set_unified, hval]

/-- Claim C2, witness: a single-row batch of width 3 against 2 columns is
rejected whole and nothing is stored. -/
theorem C2_first_five_witness :
    (cache_set_unified none mergeCols c2batchFirst 100).ok = false ∧
    (cache_set_unified none mergeCols c2batchFirst 100).doc? = none :=
  C2_first_five_validation none mergeCols c2batchFirst 100
    ⟨[Val.date 1, Val.str "t", Val.str "extra"], by decide, by decide⟩

/-- Claim C3, counterexample: with the tag-specific `day_over_day` threshold
of 10 configured for `T1`, the alert-generation path (which calls
`generate_comprehensive_alerts` with its default thresholds and never consults
the rule set) still produces NO alert for a 15% day-over-day drop on `T1`. -/
theorem C3_counterexample :
    get_threshold_for_tag cfgOverride "T1" "day_over_day" = 10 ∧
    api_alerts_for_cache ⟨exCols, c3rows⟩ 101 = [] := by
  with_unfolding_all decide

/-- Claim C3, amended: `get_threshold_for_tag` prefers the tag-specific 10
over the global default 35, and a 15% drop alerts under threshold 10 but not
under 35 when the threshold is passed to `generate_comprehensive_alerts`; the
alert-generation path, however, always invokes `generate_comprehensive_alerts`
with the default thresholds, so the configured override does not change the
alerts it produces. -/
theorem C3_threshold_override :
    get_threshold_for_tag cfgOverride "T1" "day_over_day" = 10 ∧
    get_threshold_for_tag defaultAlertRules "T1" "day_over_day" = 35 ∧
    ((generate_comprehensive_alerts c3rows exCols 10 20 25 101).filter
        (fun a => a.alert_type == "day_over_day")).length = 1 ∧
    ((generate_comprehensive_alerts c3rows exCols 35 20 25 101).filter
        (fun a => a.alert_type == "day_over_day")).length = 0 ∧
    api_alerts_for_cache ⟨exCols, c3rows⟩ 101 =
      generate_comprehensive_alerts c3rows exCols 35 20 25 101 := by
  refine ⟨by decide, by decide, by with_unfolding_all decide,
    by with_unfolding_all decide, rfl⟩

/-- Claim C4: the merge never stores a row dated today or later — newly
appended rows are date-checked, so if every previously stored row is dated
before today, every row stored after the merge (on success or failure) is
dated strictly before today. -/
theorem C4_no_future_rows (existing : Option CacheDoc) (columns : List String)
    (batch : List Row) (today : Int) (dIdx : Nat)
    (hd : colIndex "date_key" columns = some dIdx)
    (hpre : ∀ row ∈ docRows existing, dateOf (row.getD dIdx Val.null) < today) :
    ∀ row ∈ storedData (cache_set_unified existing columns batch today),
      dateOf (row.getD dIdx Val.null) < today := by
  unfold cache_set_unified
  split_ifs with hv
  · simpa [storedData] using hpre
  · cases htag : colIndex "tag_id" columns with
    | none =>
      simp only [htag, hd]
      simpa [storedData] using hpre
    | some tIdx =>
      simp only [htag, hd, storedData, docRows]
      exact mergeLoop_dates dIdx tIdx today batch _ _ 0 hpre

/-- Claim C4, witness: merging a batch holding a future row (day 150) and a
past row (day 5) with today = 100 stores the past row, and the theorem applies
to it. -/
theorem C4_no_future_rows_witness :
    dateOf (([Val.date 5, Val.str "a"] : Row).getD 0 Val.null) < 100 :=
  C4_no_future_rows none mergeCols c4batch 100 0 (by decide)
    (by simp [docRows]) [Val.date 5, Val.str "a"] (by decide)

/-- Claim C5: merging the same batch twice is idempotent — the second merge
appends zero rows (every dedup key already exists) and leaves the stored data,
hence the stored row count, unchanged. -/
theorem C5_idempotent_merge (existing : Option CacheDoc) (columns : List String)
    (batch : List Row) (today : Int) :
    (cache_set_unified (cache_set_unified existing columns batch today).doc?
      columns batch today).appended = 0 ∧
    storedData (cache_set_unified (cache_set_unified existing columns batch today).doc?
      columns batch today) =
      storedData (cache_set_unified existing columns batch today) := by
  by_cases hv : validate_data_structure columns batch = false
  · simp [cache_set_unified, hv]
  · cases htag : colIndex "tag_id" columns with
    | none =>
      cases hdk : colIndex "date_key" columns with
      | none => simp [cache_set_unified, hv, htag, hdk]
      | some dIdx => simp [cache_set_unified, hv, htag, hdk]
    | some tIdx =>
      cases hdk : colIndex "date_key" columns with
      | none => simp [cache_set_unified, hv, htag, hdk]
      | some dIdx =>
        have e1 : cache_set_unified existing columns batch today =
            ⟨true,
             some ⟨columns,
               (mergeLoop dIdx tIdx today batch (docRows existing)
                 (existingCombos dIdx tIdx (docRows existing)) 0).1⟩,
             (mergeLoop dIdx tIdx today batch (docRows existing)
               (existingCombos dIdx tIdx (docRows existing)) 0).2.2⟩ := by
          simp [cache_set_unified, hv, htag, hdk]
        set out1 := mergeLoop dIdx tIdx today batch (docRows existing)
          (existingCombos dIdx tIdx (docRows existing)) 0 with hout1
        have hcov : ∀ row ∈ batch, max dIdx tIdx < row.length →
            dateOf (row.getD dIdx Val.null) < today →
            comboKey dIdx tIdx row ∈ existingCombos dIdx tIdx out1.1 := by
          intro row hm hl hdt
          exact mergeLoop_combos_sub dIdx tIdx today batch (docRows existing) _ 0
            (fun k hk => hk)
            (mergeLoop_covers dIdx tIdx today batch (docRows existing) _ 0 row hm hl hdt)
        have e2 := mergeLoop_noop dIdx tIdx today batch out1.1
          (existingCombos dIdx tIdx out1.1) 0 hcov
        rw [e1]
        constructor
        · simp [cache_set_unified, hv, htag, hdk, docRows, e2]
        · simp [cache_set_unified, hv, htag, hdk, storedData, docRows, e2]

/-- Claim C9, counterexample: a missing run of 22 days (day 0 through day 21,
which exceeds the 21-day ceiling in the spec's day-count convention) is NOT
split into 14-day sub-ranges — it is returned as a single 22-day range. -/
theorem C9_counterexample :
    get_date_ranges_to_query 0 21 = [(0, 21)] ∧
    (get_date_ranges_to_query 0 21).all (fun r => decide (r.2 - r.1 + 1 ≤ 14)) = false := by
  decide

/-- Claim C9, amended: a 40-day missing run is split into exactly the three
ranges 14/14/12; in general a run whose endpoints differ by MORE than 21 days
(at least 23 days long) is split into 14-day sub-ranges — every non-final
sub-range spans exactly 14 days, the final one at most 14 — and the sub-ranges
partition the run (they cover exactly its days and are pairwise disjoint). -/
theorem C9_chunking (dfrom dto : Int) (h : 21 < dto - dfrom) :
    get_date_ranges_to_query_from_dates c9run = [(0, 13), (14, 27), (28, 39)] ∧
    (∀ r ∈ (get_date_ranges_to_query dfrom dto).dropLast, r.2 - r.1 + 1 = 14) ∧
    (∀ r : Int × Int, (get_date_ranges_to_query dfrom dto).getLast? = some r →
        r.2 - r.1 + 1 ≤ 14) ∧
    (∀ d : Int, (∃ r ∈ get_date_ranges_to_query dfrom dto, r.1 ≤ d ∧ d ≤ r.2) ↔
        dfrom ≤ d ∧ d ≤ dto) ∧
    (get_date_ranges_to_query dfrom dto).Pairwise (fun a b => a.2 < b.1) := by
  have hq : get_date_ranges_to_query dfrom dto = chunkFrom dfrom (dto - dfrom).toNat := by
    unfold get_date_ranges_to_query
    rw [if_neg (by omega)]
  refine ⟨by decide, ?_, ?_, ?_, ?_⟩
  · rw [hq]; exact chunkFrom_dropLast _ dfrom
  · rw [hq]; exact chunkFrom_getLast _ dfrom
  · intro d
    rw [hq, chunkFrom_cover]
    omega
  · rw [hq]; exact chunkFrom_pairwise _ dfrom

/-- Claim C9, witness: the amended claim applied to the 40-day run 0‥39. -/
theorem C9_chunking_witness :
    21 < (39 : Int) - 0 ∧
    (get_date_ranges_to_query_from_dates c9run = [(0, 13), (14, 27), (28, 39)] ∧
     (∀ r ∈ (get_date_ranges_to_query 0 39).dropLast, r.2 - r.1 + 1 = 14) ∧
     (∀ r : Int × Int, (get_date_ranges_to_query 0 39).getLast? = some r →
         r.2 - r.1 + 1 ≤ 14) ∧
     (∀ d : Int, (∃ r ∈ get_date_ranges_to_query 0 39, r.1 ≤ d ∧ d ≤ r.2) ↔
         0 ≤ d ∧ d ≤ 39) ∧
     (get_date_ranges_to_query 0 39).Pairwise (fun a b => a.2 < b.1)) :=
  ⟨by decide, C9_chunking 0 39 (by decide)⟩

/-- Claim C10: when the cached columns do not contain `date_key`, the
date-range filter returns every stored row unchanged (the `columns.index`
failure is swallowed), so rows outside the requested range are passed
through. -/
theorem C10_no_date_key (columns : List String) (data : List Row)
    (date_from date_to : Int)
    (h : colIndex "date_key" columns = none) :
    filter_cache_data_by_date_range columns data date_from date_to = data := by
  unfold filter_cache_data_by_date_range
  rw [h]

/-- Claim C10, witness: with columns `["ds", "tag_id"]` a row dated day 20 is
returned unchanged by a filter for days 5‥10, although 20 lies outside that
range. -/
theorem C10_no_date_key_witness :
    filter_cache_data_by_date_range c10cols c10data 5 10 = c10data ∧
    c10data = [[Val.date 20, Val.str "T"]] ∧ ¬((5 : Int) ≤ 20 ∧ (20 : Int) ≤ 10) :=
  ⟨C10_no_date_key c10cols c10data 5 10 (by decide), by decide, by decide⟩

/-- Filtering the per-tag alerts by `day_over_day` isolates exactly the
day-over-day strategy's output. -/
theorem tag_alerts_filter_day (dIdx tIdx iIdx : Nat) (tagNameIdx? : Option Nat)
    (dayT weekT weekIncT : ℚ) (g : List Row) (hg : 2 ≤ g.length) :
    (tag_alerts dIdx tIdx tagNameIdx? (some iIdx) dayT weekT weekIncT g).filter
        (fun a => a.alert_type == "day_over_day") =
      day_over_day_alerts dIdx tIdx iIdx
        (bestTagName tagNameIdx? tIdx (sortDescByDate dIdx g)) dayT
        (sortDescByDate dIdx g) := by
  have hw : ∀ a ∈ week_over_week_alerts dIdx tIdx iIdx
      (bestTagName tagNameIdx? tIdx (sortDescByDate dIdx g)) weekT weekIncT
      (sortDescByDate dIdx g), a.alert_type ≠ "day_over_day" := by
    intro a ha
    rcases week_alert_type _ _ _ _ _ _ _ a ha with h | h <;> rw [h] <;> decide
  have hgp : ∀ a ∈ gap_tolerant_alerts dIdx tIdx iIdx
      (bestTagName tagNameIdx? tIdx (sortDescByDate dIdx g)) dayT
      (sortDescByDate dIdx g), a.alert_type ≠ "day_over_day" := by
    intro a ha
    rw [gapLoop_alert_type _ _ _ _ _ _ _ a ha]
    decide
  simp only [tag_alerts]
  rw [if_neg (by omega)]
  rw [List.filter_append, List.filter_append]
  rw [filter_type_self _ _ (day_alert_type _ _ _ _ _ _),
    filter_type_nil _ _ hw, filter_type_nil _ _ hgp]
  simp

/-- Filtering the per-tag alerts by `gap_tolerant` isolates exactly the
gap-tolerant strategy's output. -/
theorem tag_alerts_filter_gap (dIdx tIdx iIdx : Nat) (tagNameIdx? : Option Nat)
    (dayT weekT weekIncT : ℚ) (g : List Row) (hg : 2 ≤ g.length) :
    (tag_alerts dIdx tIdx tagNameIdx? (some iIdx) dayT weekT weekIncT g).filter
        (fun a => a.alert_type == "gap_tolerant") =
      gap_tolerant_alerts dIdx tIdx iIdx
        (bestTagName tagNameIdx? tIdx (sortDescByDate dIdx g)) dayT
        (sortDescByDate dIdx g) := by
  have hd : ∀ a ∈ day_over_day_alerts dIdx tIdx iIdx
      (bestTagName tagNameIdx? tIdx (sortDescByDate dIdx g)) dayT
      (sortDescByDate dIdx g), a.alert_type ≠ "gap_tolerant" := by
    intro a ha
    rw [day_alert_type _ _ _ _ _ _ a ha]
    decide
  have hw : ∀ a ∈ week_over_week_alerts dIdx tIdx iIdx
      (bestTagName tagNameIdx? tIdx (sortDescByDate dIdx g)) weekT weekIncT
      (sortDescByDate dIdx g), a.alert_type ≠ "gap_tolerant" := by
    intro a ha
    rcases week_alert_type _ _ _ _ _ _ _ a ha with h | h <;> rw [h] <;> decide
  have hgap : ∀ a ∈ gap_tolerant_alerts dIdx tIdx iIdx
      (bestTagName tagNameIdx? tIdx (sortDescByDate dIdx g)) dayT
      (sortDescByDate dIdx g), a.alert_type = "gap_tolerant" := by
    intro a ha
    exact gapLoop_alert_type _ _ _ _ _ _ _ a ha
  simp only [tag_alerts]
  rw [if_neg (by omega)]
  rw [List.filter_append, List.filter_append]
  rw [filter_type_nil _ _ hd, filter_type_nil _ _ hw, filter_type_self _ _ hgap]
  simp

/-- Filtering the per-tag alerts by either week-over-week type reduces to the
week strategy's output under the same filter. -/
theorem tag_alerts_filter_week (dIdx tIdx iIdx : Nat) (tagNameIdx? : Option Nat)
    (dayT weekT weekIncT : ℚ) (g : List Row) (hg : 2 ≤ g.length) (ty : String)
    (hty : ty = "week_over_week" ∨ ty = "week_over_week_increase") :
    (tag_alerts dIdx tIdx tagNameIdx? (some iIdx) dayT weekT weekIncT g).filter
        (fun a => a.alert_type == ty) =
      (week_over_week_alerts dIdx tIdx iIdx
        (bestTagName tagNameIdx? tIdx (sortDescByDate dIdx g)) weekT weekIncT
        (sortDescByDate dIdx g)).filter (fun a => a.alert_type == ty) := by
  have hd : ∀ a ∈ day_over_day_alerts dIdx tIdx iIdx
      (bestTagName tagNameIdx? tIdx (sortDescByDate dIdx g)) dayT
      (sortDescByDate dIdx g), a.alert_type ≠ ty := by
    intro a ha
    rw [day_alert_type _ _ _ _ _ _ a ha]
    rcases hty with h | h <;> rw [h] <;> decide
  have hgp : ∀ a ∈ gap_tolerant_alerts dIdx tIdx iIdx
      (bestTagName tagNameIdx? tIdx (sortDescByDate dIdx g)) dayT
      (sortDescByDate dIdx g), a.alert_type ≠ ty := by
    intro a ha
    rw [gapLoop_alert_type _ _ _ _ _ _ _ a ha]
    rcases hty with h | h <;> rw [h] <;> decide
  simp only [tag_alerts]
  rw [if_neg (by omega)]
  rw [List.filter_append, List.filter_append]
  rw [filter_type_nil _ _ hd, filter_type_nil _ _ hgp]
  simp

/-- Claim C6, counterexample: the spec's own example — yesterday = 1000
against day-before = 2000 — produces NO alert at all, because the preceding
value 2000 does not exceed the 2500 minimum-traffic floor. -/
theorem C6_counterexample :
    generate_comprehensive_alerts c6badRows exCols 35 20 25 101 = [] ∧
    orZero ((c6badRows.getD 1 []).getD 2 Val.null) = 2000 ∧
    ¬(2500 : ℚ) < 2000 := by
  refine ⟨by with_unfolding_all decide, by with_unfolding_all decide, by norm_num⟩

/-- Claim C6, amended: for a tag group with at least 2 rows, a `day_over_day`
alert is produced iff the newest row's date is exactly one day after the
second-newest row's, the preceding value exceeds 2500 and the drop percentage
reaches the (positive) day threshold; its severity is high at ≥50, medium at
≥35, else low.  The concrete example is amended to respect the floor:
yesterday = 2000 against day-before = 4000 yields one `day_over_day` alert of
severity high. -/
theorem C6_day_over_day (dIdx tIdx iIdx : Nat) (tagNameIdx? : Option Nat)
    (dayT weekT weekIncT : ℚ) (g sorted : List Row) (cur prev : ℚ)
    (curD prevD : Int)
    (hg : 2 ≤ g.length) (hT : 0 < dayT)
    (hs : sorted = sortDescByDate dIdx g)
    (hcur : cur = orZero ((sorted.getD 0 []).getD iIdx Val.null))
    (hprev : prev = orZero ((sorted.getD 1 []).getD iIdx Val.null))
    (hcurD : curD = dateOf ((sorted.getD 0 []).getD dIdx Val.null))
    (hprevD : prevD = dateOf ((sorted.getD 1 []).getD dIdx Val.null)) :
    (((tag_alerts dIdx tIdx tagNameIdx? (some iIdx) dayT weekT weekIncT g).filter
        (fun a => a.alert_type == "day_over_day")).length =
      if curD - prevD = 1 ∧ 2500 < prev ∧ dayT ≤ dropPct prev cur then 1 else 0) ∧
    (∀ a ∈ (tag_alerts dIdx tIdx tagNameIdx? (some iIdx) dayT weekT weekIncT g).filter
        (fun a => a.alert_type == "day_over_day"),
      a.severity = (if 50 ≤ dropPct prev cur then "high"
        else if 35 ≤ dropPct prev cur then "medium" else "low") ∧
      a.current_value = cur ∧ a.previous_value = prev ∧ a.date = curD) ∧
    ((generate_comprehensive_alerts c6rows exCols 35 20 25 101).filter
        (fun a => a.alert_type == "day_over_day")).length = 1 ∧
    ((generate_comprehensive_alerts c6rows exCols 35 20 25 101).filter
        (fun a => a.alert_type == "day_over_day")).all
      (fun a => a.severity == "high") = true := by
  subst hs hcur hprev hcurD hprevD
  rw [tag_alerts_filter_day dIdx tIdx iIdx tagNameIdx? dayT weekT weekIncT g hg]
  refine ⟨?_, ?_, by with_unfolding_all decide, by with_unfolding_all decide⟩
  · by_cases hC : (dateOf (((sortDescByDate dIdx g).getD 0 []).getD dIdx Val.null) -
        dateOf (((sortDescByDate dIdx g).getD 1 []).getD dIdx Val.null) = 1 ∧
        2500 < orZero (((sortDescByDate dIdx g).getD 1 []).getD iIdx Val.null) ∧
        dayT ≤ dropPct (orZero (((sortDescByDate dIdx g).getD 1 []).getD iIdx Val.null))
          (orZero (((sortDescByDate dIdx g).getD 0 []).getD iIdx Val.null)))
    · obtain ⟨h1, h2, h3⟩ := hC
      have hlt := lt_of_le_dropPct _ _ dayT (by linarith) hT h3
      rw [if_pos ⟨h1, h2, h3⟩]
      simp only [day_over_day_alerts]
      rw [if_pos ⟨h1, h2⟩, if_pos hlt, if_pos h3]
      rfl
    · rw [if_neg hC]
      simp only [day_over_day_alerts]
      by_cases h1 : (dateOf (((sortDescByDate dIdx g).getD 0 []).getD dIdx Val.null) -
          dateOf (((sortDescByDate dIdx g).getD 1 []).getD dIdx Val.null) = 1 ∧
          2500 < orZero (((sortDescByDate dIdx g).getD 1 []).getD iIdx Val.null))
      · by_cases h2 : orZero (((sortDescByDate dIdx g).getD 0 []).getD iIdx Val.null) <
            orZero (((sortDescByDate dIdx g).getD 1 []).getD iIdx Val.null)
        · have h3 : ¬ dayT ≤
              dropPct (orZero (((sortDescByDate dIdx g).getD 1 []).getD iIdx Val.null))
                (orZero (((sortDescByDate dIdx g).getD 0 []).getD iIdx Val.null)) :=
            fun h3 => hC ⟨h1.1, h1.2, h3⟩
          rw [if_pos h1, if_pos h2, if_neg h3]
          rfl
        · rw [if_pos h1, if_neg h2]
          rfl
      · rw [if_neg h1]
        rfl
  · intro a ha
    simp only [day_over_day_alerts] at ha
    split_ifs at ha ⊢ <;> first
    | (rw [List.mem_singleton] at ha; subst ha; exact ⟨rfl, rfl, rfl, rfl⟩)
    | exact absurd ha (List.not_mem_nil a)

/-- Claim C6, witness: the amended characterization applied to the concrete
floor-respecting group (2000 yesterday against 4000 the day before). -/
theorem C6_day_over_day_witness :
    ((tag_alerts 0 1 none (some 2) 35 20 25 c6rows).filter
        (fun a => a.alert_type == "day_over_day")).length =
      if (100 : Int) - 99 = 1 ∧ (2500 : ℚ) < 4000 ∧ (35 : ℚ) ≤ dropPct 4000 2000
      then 1 else 0 :=
  (C6_day_over_day 0 1 2 none 35 20 25 c6rows
    [[Val.date 100, Val.str "T1", Val.num 2000], [Val.date 99, Val.str "T1", Val.num 4000]]
    2000 4000 100 99 (by decide) (by norm_num)
    (by decide) (by decide) (by decide) (by decide) (by decide)).1

/-- Claim C7: the gap-tolerant strategy scans only the candidate indices
`1, 2, 3` (at most the 3 rows after the newest), uses the FIRST row within a
1–3 day gap whose value exceeds 2500, and produces one `gap_tolerant` alert
carrying `days_gap` exactly when the drop percentage reaches `0.8 ×
day_threshold`; the concrete example — current value 1000 against a 2-day-old
prior 3000 — yields one `gap_tolerant` alert with `days_gap = 2`. -/
theorem C7_gap_tolerant (dIdx tIdx iIdx : Nat) (tagNameIdx? : Option Nat)
    (dayT weekT weekIncT : ℚ) (g sorted : List Row) (cur : ℚ) (curD : Int)
    (hg : 2 ≤ g.length) (hT : 0 < dayT)
    (hs : sorted = sortDescByDate dIdx g)
    (hcur : cur = orZero ((sorted.getD 0 []).getD iIdx Val.null))
    (hcurD : curD = dateOf ((sorted.getD 0 []).getD dIdx Val.null)) :
    ((tag_alerts dIdx tIdx tagNameIdx? (some iIdx) dayT weekT weekIncT g).filter
        (fun a => a.alert_type == "gap_tolerant") =
      match (List.range' 1 (min 3 (sorted.length - 1))).find? (fun i =>
          decide (1 ≤ curD - dateOf ((sorted.getD i []).getD dIdx Val.null) ∧
            curD - dateOf ((sorted.getD i []).getD dIdx Val.null) ≤ 3 ∧
            2500 < orZero ((sorted.getD i []).getD iIdx Val.null))) with
      | none => []
      | some i =>
        if dayT * (4 / 5) ≤
            dropPct (orZero ((sorted.getD i []).getD iIdx Val.null)) cur then
          [{ tag_id := (sorted.getD 0 []).getD tIdx Val.null
             tag_name := bestTagName tagNameIdx? tIdx sorted
             metric := "total_impressions"
             date := curD
             current_value := cur
             previous_value := orZero ((sorted.getD i []).getD iIdx Val.null)
             change_percent :=
               -dropPct (orZero ((sorted.getD i []).getD iIdx Val.null)) cur
             severity :=
               if 50 ≤ dropPct (orZero ((sorted.getD i []).getD iIdx Val.null)) cur
               then "high"
               else if 35 ≤ dropPct (orZero ((sorted.getD i []).getD iIdx Val.null)) cur
               then "medium" else "low"
             alert_type := "gap_tolerant"
             days_gap := some (curD - dateOf ((sorted.getD i []).getD dIdx Val.null)) }]
        else []) ∧
    ((generate_comprehensive_alerts c7rows exCols 35 20 25 101).filter
        (fun a => a.alert_type == "gap_tolerant")).length = 1 ∧
    (generate_comprehensive_alerts c7rows exCols 35 20 25 101).all
      (fun a => a.alert_type == "gap_tolerant" && a.days_gap == some 2) = true := by
  subst hs hcur hcurD
  refine ⟨?_, by with_unfolding_all decide, by with_unfolding_all decide⟩
  rw [tag_alerts_filter_gap dIdx tIdx iIdx tagNameIdx? dayT weekT weekIncT g hg]
  unfold gap_tolerant_alerts
  rw [gapLoop_eq_find]
  cases hfind : (List.range' 1 (min 3 ((sortDescByDate dIdx g).length - 1))).find?
      (fun i =>
        decide (1 ≤ dateOf (((sortDescByDate dIdx g).getD 0 []).getD dIdx Val.null) -
            dateOf (((sortDescByDate dIdx g).getD i []).getD dIdx Val.null) ∧
          dateOf (((sortDescByDate dIdx g).getD 0 []).getD dIdx Val.null) -
            dateOf (((sortDescByDate dIdx g).getD i []).getD dIdx Val.null) ≤ 3 ∧
          2500 < orZero (((sortDescByDate dIdx g).getD i []).getD iIdx Val.null))) with
  | none => simp only [hfind]
  | some i =>
    simp only [hfind]
    have hq := List.find?_some hfind
    simp only [decide_eq_true_eq] at hq
    obtain ⟨hq1, hq2, hq3⟩ := hq
    simp only [gapLoop]
    rw [if_pos ⟨hq1, hq2, hq3⟩]
    by_cases hc : dayT * (4 / 5) ≤
        dropPct (orZero (((sortDescByDate dIdx g).getD i []).getD iIdx Val.null))
          (orZero (((sortDescByDate dIdx g).getD 0 []).getD iIdx Val.null))
    · have hlt := lt_of_le_dropPct _ _ (dayT * (4 / 5)) (by linarith)
        (mul_pos hT (by norm_num)) hc
      rw [if_pos hlt, if_pos hc]
    · rw [if_neg hc]
      by_cases h2 : orZero (((sortDescByDate dIdx g).getD 0 []).getD iIdx Val.null) <
          orZero (((sortDescByDate dIdx g).getD i []).getD iIdx Val.null)
      · rw [if_pos h2]
      · rw [if_neg h2]

/-- Claim C7, witness: the characterization applied to the concrete example
(current 1000, 2-day-old prior 3000). -/
theorem C7_gap_tolerant_witness :
    ((generate_comprehensive_alerts c7rows exCols 35 20 25 101).filter
        (fun a => a.alert_type == "gap_tolerant")).length = 1 :=
  (C7_gap_tolerant 0 1 2 none 35 20 25 c7rows
    [[Val.date 100, Val.str "T1", Val.num 1000], [Val.date 98, Val.str "T1", Val.num 3000]]
    1000 100 (by decide) (by norm_num) (by decide) (by decide) (by decide)).2.1

/-- The `week_over_week` (drop) output of the week strategy is a single alert
exactly when the previous window clears the floor, the trailing window
dropped, and the drop percentage reaches the week threshold. -/
theorem week_filter_drop (dIdx tIdx iIdx : Nat) (name : String)
    (weekT weekIncT : ℚ) (sorted : List Row) :
    (week_over_week_alerts dIdx tIdx iIdx name weekT weekIncT sorted).filter
        (fun a => a.alert_type == "week_over_week") =
      if 2500 < week_window_total dIdx iIdx
            (dateOf ((sorted.getD 0 []).getD dIdx Val.null) - 13)
            (dateOf ((sorted.getD 0 []).getD dIdx Val.null) - 7) sorted ∧
          week_window_total dIdx iIdx
            (dateOf ((sorted.getD 0 []).getD dIdx Val.null) - 6)
            (dateOf ((sorted.getD 0 []).getD dIdx Val.null)) sorted <
            week_window_total dIdx iIdx
              (dateOf ((sorted.getD 0 []).getD dIdx Val.null) - 13)
              (dateOf ((sorted.getD 0 []).getD dIdx Val.null) - 7) sorted ∧
          weekT ≤ dropPct
            (week_window_total dIdx iIdx
              (dateOf ((sorted.getD 0 []).getD dIdx Val.null) - 13)
              (dateOf ((sorted.getD 0 []).getD dIdx Val.null) - 7) sorted)
            (week_window_total dIdx iIdx
              (dateOf ((sorted.getD 0 []).getD dIdx Val.null) - 6)
              (dateOf ((sorted.getD 0 []).getD dIdx Val.null)) sorted) then
        [{ tag_id := (sorted.getD 0 []).getD tIdx Val.null
           tag_name := name
           metric := "total_impressions"
           date := dateOf ((sorted.getD 0 []).getD dIdx Val.null)
           current_value := week_window_total dIdx iIdx
             (dateOf ((sorted.getD 0 []).getD dIdx Val.null) - 6)
             (dateOf ((sorted.getD 0 []).getD dIdx Val.null)) sorted
           previous_value := week_window_total dIdx iIdx
             (dateOf ((sorted.getD 0 []).getD dIdx Val.null) - 13)
             (dateOf ((sorted.getD 0 []).getD dIdx Val.null) - 7) sorted
           change_percent := -dropPct
             (week_window_total dIdx iIdx
               (dateOf ((sorted.getD 0 []).getD dIdx Val.null) - 13)
               (dateOf ((sorted.getD 0 []).getD dIdx Val.null) - 7) sorted)
             (week_window_total dIdx iIdx
               (dateOf ((sorted.getD 0 []).getD dIdx Val.null) - 6)
               (dateOf ((sorted.getD 0 []).getD dIdx Val.null)) sorted)
           severity :=
             if 40 ≤ dropPct
                 (week_window_total dIdx iIdx
                   (dateOf ((sorted.getD 0 []).getD dIdx Val.null) - 13)
                   (dateOf ((sorted.getD 0 []).getD dIdx Val.null) - 7) sorted)
                 (week_window_total dIdx iIdx
                   (dateOf ((sorted.getD 0 []).getD dIdx Val.null) - 6)
                   (dateOf ((sorted.getD 0 []).getD dIdx Val.null)) sorted) then "high"
             else if 25 ≤ dropPct
                 (week_window_total dIdx iIdx
                   (dateOf ((sorted.getD 0 []).getD dIdx Val.null) - 13)
                   (dateOf ((sorted.getD 0 []).getD dIdx Val.null) - 7) sorted)
                 (week_window_total dIdx iIdx
                   (dateOf ((sorted.getD 0 []).getD dIdx Val.null) - 6)
                   (dateOf ((sorted.getD 0 []).getD dIdx Val.null)) sorted) then "medium"
             else "low"
           alert_type := "week_over_week"
           days_gap := none }]
      else [] := by
  by_cases hC : 2500 < week_window_total dIdx iIdx (dateOf ((sorted.getD 0 []).getD dIdx Val.null) - 13) (dateOf ((sorted.getD 0 []).getD dIdx Val.null) - 7) sorted ∧ week_window_total dIdx iIdx (dateOf ((sorted.getD 0 []).getD dIdx Val.null) - 6) (dateOf ((sorted.getD 0 []).getD dIdx Val.null)) sorted < week_window_total dIdx iIdx (dateOf ((sorted.getD 0 []).getD dIdx Val.null) - 13) (dateOf ((sorted.getD 0 []).getD dIdx Val.null) - 7) sorted ∧ weekT ≤ dropPct (week_window_total dIdx iIdx (dateOf ((sorted.getD 0 []).getD dIdx Val.null) - 13) (dateOf ((sorted.getD 0 []).getD dIdx Val.null) - 7) sorted) (week_window_total dIdx iIdx (dateOf ((sorted.getD 0 []).getD dIdx Val.null) - 6) (dateOf ((sorted.getD 0 []).getD dIdx Val.null)) sorted)
  · obtain ⟨h1, h2, h3⟩ := hC
    rw [if_pos (And.intro h1 (And.intro h2 h3))]
    simp only [week_over_week_alerts]
    rw [if_pos h1, if_pos h2, if_pos h3]
    exact filter_type_self _ _ (fun a ha => by rw [List.mem_singleton.mp ha])
  · rw [if_neg hC]
    simp only [week_over_week_alerts]
    by_cases h1 : 2500 < week_window_total dIdx iIdx (dateOf ((sorted.getD 0 []).getD dIdx Val.null) - 13) (dateOf ((sorted.getD 0 []).getD dIdx Val.null) - 7) sorted
    · rw [if_pos h1]
      by_cases h2 : week_window_total dIdx iIdx (dateOf ((sorted.getD 0 []).getD dIdx Val.null) - 6) (dateOf ((sorted.getD 0 []).getD dIdx Val.null)) sorted < week_window_total dIdx iIdx (dateOf ((sorted.getD 0 []).getD dIdx Val.null) - 13) (dateOf ((sorted.getD 0 []).getD dIdx Val.null) - 7) sorted
      · rw [if_pos h2]
        have h3 : ¬ weekT ≤ dropPct (week_window_total dIdx iIdx (dateOf ((sorted.getD 0 []).getD dIdx Val.null) - 13) (dateOf ((sorted.getD 0 []).getD dIdx Val.null) - 7) sorted) (week_window_total dIdx iIdx (dateOf ((sorted.getD 0 []).getD dIdx Val.null) - 6) (dateOf ((sorted.getD 0 []).getD dIdx Val.null)) sorted) :=
          fun h3 => hC (And.intro h1 (And.intro h2 h3))
        rw [if_neg h3]
        rfl
      · rw [if_neg h2]
        by_cases h4 : week_window_total dIdx iIdx (dateOf ((sorted.getD 0 []).getD dIdx Val.null) - 13) (dateOf ((sorted.getD 0 []).getD dIdx Val.null) - 7) sorted < week_window_total dIdx iIdx (dateOf ((sorted.getD 0 []).getD dIdx Val.null) - 6) (dateOf ((sorted.getD 0 []).getD dIdx Val.null)) sorted
        · rw [if_pos h4]
          by_cases h5 : weekIncT ≤ incPct (week_window_total dIdx iIdx (dateOf ((sorted.getD 0 []).getD dIdx Val.null) - 13) (dateOf ((sorted.getD 0 []).getD dIdx Val.null) - 7) sorted) (week_window_total dIdx iIdx (dateOf ((sorted.getD 0 []).getD dIdx Val.null) - 6) (dateOf ((sorted.getD 0 []).getD dIdx Val.null)) sorted)
          · rw [if_pos h5]
            exact filter_type_nil _ _
              (fun a ha => by
                rw [List.mem_singleton.mp ha]
                exact (by decide : ¬("week_over_week_increase" : String) = "week_over_week"))
          · rw [if_neg h5]
            rfl
        · rw [if_neg h4]
          rfl
    · rw [if_neg h1]
      rfl

/-- The `week_over_week_increase` output of the week strategy is a single
alert exactly when the previous window clears the floor, the trailing window
grew, and the increase percentage reaches the increase threshold. -/
theorem week_filter_inc (dIdx tIdx iIdx : Nat) (name : String)
    (weekT weekIncT : ℚ) (sorted : List Row) :
    (week_over_week_alerts dIdx tIdx iIdx name weekT weekIncT sorted).filter
        (fun a => a.alert_type == "week_over_week_increase") =
      if 2500 < week_window_total dIdx iIdx (dateOf ((sorted.getD 0 []).getD dIdx Val.null) - 13) (dateOf ((sorted.getD 0 []).getD dIdx Val.null) - 7) sorted ∧ week_window_total dIdx iIdx (dateOf ((sorted.getD 0 []).getD dIdx Val.null) - 13) (dateOf ((sorted.getD 0 []).getD dIdx Val.null) - 7) sorted < week_window_total dIdx iIdx (dateOf ((sorted.getD 0 []).getD dIdx Val.null) - 6) (dateOf ((sorted.getD 0 []).getD dIdx Val.null)) sorted ∧ weekIncT ≤ incPct (week_window_total dIdx iIdx (dateOf ((sorted.getD 0 []).getD dIdx Val.null) - 13) (dateOf ((sorted.getD 0 []).getD dIdx Val.null) - 7) sorted) (week_window_total dIdx iIdx (dateOf ((sorted.getD 0 []).getD dIdx Val.null) - 6) (dateOf ((sorted.getD 0 []).getD dIdx Val.null)) sorted) then
        [{ tag_id := (sorted.getD 0 []).getD tIdx Val.null
           tag_name := name
           metric := "total_impressions"
           date := dateOf ((sorted.getD 0 []).getD dIdx Val.null)
           current_value := week_window_total dIdx iIdx (dateOf ((sorted.getD 0 []).getD dIdx Val.null) - 6) (dateOf ((sorted.getD 0 []).getD dIdx Val.null)) sorted
           previous_value := week_window_total dIdx iIdx (dateOf ((sorted.getD 0 []).getD dIdx Val.null) - 13) (dateOf ((sorted.getD 0 []).getD dIdx Val.null) - 7) sorted
           change_percent := incPct (week_window_total dIdx iIdx (dateOf ((sorted.getD 0 []).getD dIdx Val.null) - 13) (dateOf ((sorted.getD 0 []).getD dIdx Val.null) - 7) sorted) (week_window_total dIdx iIdx (dateOf ((sorted.getD 0 []).getD dIdx Val.null) - 6) (dateOf ((sorted.getD 0 []).getD dIdx Val.null)) sorted)
           severity :=
             if 50 ≤ incPct (week_window_total dIdx iIdx (dateOf ((sorted.getD 0 []).getD dIdx Val.null) - 13) (dateOf ((sorted.getD 0 []).getD dIdx Val.null) - 7) sorted) (week_window_total dIdx iIdx (dateOf ((sorted.getD 0 []).getD dIdx Val.null) - 6) (dateOf ((sorted.getD 0 []).getD dIdx Val.null)) sorted) then "high"
             else if 35 ≤ incPct (week_window_total dIdx iIdx (dateOf ((sorted.getD 0 []).getD dIdx Val.null) - 13) (dateOf ((sorted.getD 0 []).getD dIdx Val.null) - 7) sorted) (week_window_total dIdx iIdx (dateOf ((sorted.getD 0 []).getD dIdx Val.null) - 6) (dateOf ((sorted.getD 0 []).getD dIdx Val.null)) sorted) then "medium"
             else "low"
           alert_type := "week_over_week_increase"
           days_gap := none }]
      else [] := by
  by_cases hC : 2500 < week_window_total dIdx iIdx (dateOf ((sorted.getD 0 []).getD dIdx Val.null) - 13) (dateOf ((sorted.getD 0 []).getD dIdx Val.null) - 7) sorted ∧ week_window_total dIdx iIdx (dateOf ((sorted.getD 0 []).getD dIdx Val.null) - 13) (dateOf ((sorted.getD 0 []).getD dIdx Val.null) - 7) sorted < week_window_total dIdx iIdx (dateOf ((sorted.getD 0 []).getD dIdx Val.null) - 6) (dateOf ((sorted.getD 0 []).getD dIdx Val.null)) sorted ∧ weekIncT ≤ incPct (week_window_total dIdx iIdx (dateOf ((sorted.getD 0 []).getD dIdx Val.null) - 13) (dateOf ((sorted.getD 0 []).getD dIdx Val.null) - 7) sorted) (week_window_total dIdx iIdx (dateOf ((sorted.getD 0 []).getD dIdx Val.null) - 6) (dateOf ((sorted.getD 0 []).getD dIdx Val.null)) sorted)
  · obtain ⟨h1, h4, h5⟩ := hC
    have h2 : ¬ week_window_total dIdx iIdx (dateOf ((sorted.getD 0 []).getD dIdx Val.null) - 6) (dateOf ((sorted.getD 0 []).getD dIdx Val.null)) sorted < week_window_total dIdx iIdx (dateOf ((sorted.getD 0 []).getD dIdx Val.null) - 13) (dateOf ((sorted.getD 0 []).getD dIdx Val.null) - 7) sorted := lt_asymm h4
    rw [if_pos (And.intro h1 (And.intro h4 h5))]
    simp only [week_over_week_alerts]
    rw [if_pos h1, if_neg h2, if_pos h4, if_pos h5]
    exact filter_type_self _ _ (fun a ha => by rw [List.mem_singleton.mp ha])
  · rw [if_neg hC]
    simp only [week_over_week_alerts]
    by_cases h1 : 2500 < week_window_total dIdx iIdx (dateOf ((sorted.getD 0 []).getD dIdx Val.null) - 13) (dateOf ((sorted.getD 0 []).getD dIdx Val.null) - 7) sorted
    · rw [if_pos h1]
      by_cases h2 : week_window_total dIdx iIdx (dateOf ((sorted.getD 0 []).getD dIdx Val.null) - 6) (dateOf ((sorted.getD 0 []).getD dIdx Val.null)) sorted < week_window_total dIdx iIdx (dateOf ((sorted.getD 0 []).getD dIdx Val.null) - 13) (dateOf ((sorted.getD 0 []).getD dIdx Val.null) - 7) sorted
      · rw [if_pos h2]
        by_cases h3 : weekT ≤ dropPct (week_window_total dIdx iIdx (dateOf ((sorted.getD 0 []).getD dIdx Val.null) - 13) (dateOf ((sorted.getD 0 []).getD dIdx Val.null) - 7) sorted) (week_window_total dIdx iIdx (dateOf ((sorted.getD 0 []).getD dIdx Val.null) - 6) (dateOf ((sorted.getD 0 []).getD dIdx Val.null)) sorted)
        · rw [if_pos h3]
          exact filter_type_nil _ _
            (fun a ha => by
              rw [List.mem_singleton.mp ha]
              exact (by decide : ¬("week_over_week" : String) = "week_over_week_increase"))
        · rw [if_neg h3]
          rfl
      · rw [if_neg h2]
        by_cases h4 : week_window_total dIdx iIdx (dateOf ((sorted.getD 0 []).getD dIdx Val.null) - 13) (dateOf ((sorted.getD 0 []).getD dIdx Val.null) - 7) sorted < week_window_total dIdx iIdx (dateOf ((sorted.getD 0 []).getD dIdx Val.null) - 6) (dateOf ((sorted.getD 0 []).getD dIdx Val.null)) sorted
        · rw [if_pos h4]
          have h5 : ¬ weekIncT ≤ incPct (week_window_total dIdx iIdx (dateOf ((sorted.getD 0 []).getD dIdx Val.null) - 13) (dateOf ((sorted.getD 0 []).getD dIdx Val.null) - 7) sorted) (week_window_total dIdx iIdx (dateOf ((sorted.getD 0 []).getD dIdx Val.null) - 6) (dateOf ((sorted.getD 0 []).getD dIdx Val.null)) sorted) :=
            fun h5 => hC (And.intro h1 (And.intro h4 h5))
          rw [if_neg h5]
          rfl
        · rw [if_neg h4]
          rfl
    · rw [if_neg h1]
      rfl

/-- Claim C8: for a tag group, the week-over-week comparison never produces
both a drop and an increase alert (they are branches of one `if`/`elif`, so at
most one fires); a `week_over_week` drop alert is produced exactly when the
previous 7-day window's sum exceeds 2500 and the drop percentage reaches the
(positive) week threshold, with severity high at ≥40, medium at ≥25, else low;
the concrete example — trailing sum 8000 against preceding sum 12000 — yields
one `week_over_week` alert of severity medium. -/
theorem C8_week_over_week (dIdx tIdx iIdx : Nat) (tagNameIdx? : Option Nat)
    (dayT weekT weekIncT : ℚ) (g sorted : List Row) (curTot prevTot : ℚ)
    (curD : Int)
    (hg : 2 ≤ g.length) (hWT : 0 < weekT)
    (hs : sorted = sortDescByDate dIdx g)
    (hcurD : curD = dateOf ((sorted.getD 0 []).getD dIdx Val.null))
    (hcurTot : curTot = week_window_total dIdx iIdx (curD - 6) curD sorted)
    (hprevTot : prevTot = week_window_total dIdx iIdx (curD - 13) (curD - 7) sorted) :
    ((tag_alerts dIdx tIdx tagNameIdx? (some iIdx) dayT weekT weekIncT g).countP (fun a => a.alert_type == "week_over_week") +
      (tag_alerts dIdx tIdx tagNameIdx? (some iIdx) dayT weekT weekIncT g).countP (fun a => a.alert_type == "week_over_week_increase") ≤ 1) ∧
    (((tag_alerts dIdx tIdx tagNameIdx? (some iIdx) dayT weekT weekIncT g).filter (fun a => a.alert_type == "week_over_week")).length =
      if 2500 < prevTot ∧ weekT ≤ dropPct prevTot curTot then 1 else 0) ∧
    (∀ a ∈ (tag_alerts dIdx tIdx tagNameIdx? (some iIdx) dayT weekT weekIncT g).filter (fun a => a.alert_type == "week_over_week"),
      a.severity = (if 40 ≤ dropPct prevTot curTot then "high"
        else if 25 ≤ dropPct prevTot curTot then "medium" else "low") ∧
      a.current_value = curTot ∧ a.previous_value = prevTot) ∧
    ((generate_comprehensive_alerts c8rows exCols 35 20 25 101).filter
        (fun a => a.alert_type == "week_over_week")).length = 1 ∧
    (generate_comprehensive_alerts c8rows exCols 35 20 25 101).all
      (fun a => a.alert_type == "week_over_week" && a.severity == "medium") = true := by
  subst hs hcurD hcurTot hprevTot
  refine ⟨?_, ?_, ?_, by with_unfolding_all decide, by with_unfolding_all decide⟩
  · rw [List.countP_eq_length_filter, List.countP_eq_length_filter,
      tag_alerts_filter_week dIdx tIdx iIdx tagNameIdx? dayT weekT weekIncT g hg
        "week_over_week" (Or.inl rfl),
      tag_alerts_filter_week dIdx tIdx iIdx tagNameIdx? dayT weekT weekIncT g hg
        "week_over_week_increase" (Or.inr rfl),
      week_filter_drop, week_filter_inc]
    by_cases hA : 2500 < week_window_total dIdx iIdx (dateOf (((sortDescByDate dIdx g).getD 0 []).getD dIdx Val.null) - 13) (dateOf (((sortDescByDate dIdx g).getD 0 []).getD dIdx Val.null) - 7) (sortDescByDate dIdx g) ∧ week_window_total dIdx iIdx (dateOf (((sortDescByDate dIdx g).getD 0 []).getD dIdx Val.null) - 6) (dateOf (((sortDescByDate dIdx g).getD 0 []).getD dIdx Val.null)) (sortDescByDate dIdx g) < week_window_total dIdx iIdx (dateOf (((sortDescByDate dIdx g).getD 0 []).getD dIdx Val.null) - 13) (dateOf (((sortDescByDate dIdx g).getD 0 []).getD dIdx Val.null) - 7) (sortDescByDate dIdx g) ∧ weekT ≤ dropPct (week_window_total dIdx iIdx (dateOf (((sortDescByDate dIdx g).getD 0 []).getD dIdx Val.null) - 13) (dateOf (((sortDescByDate dIdx g).getD 0 []).getD dIdx Val.null) - 7) (sortDescByDate dIdx g)) (week_window_total dIdx iIdx (dateOf (((sortDescByDate dIdx g).getD 0 []).getD dIdx Val.null) - 6) (dateOf (((sortDescByDate dIdx g).getD 0 []).getD dIdx Val.null)) (sortDescByDate dIdx g))
    · by_cases hB : 2500 < week_window_total dIdx iIdx (dateOf (((sortDescByDate dIdx g).getD 0 []).getD dIdx Val.null) - 13) (dateOf (((sortDescByDate dIdx g).getD 0 []).getD dIdx Val.null) - 7) (sortDescByDate dIdx g) ∧ week_window_total dIdx iIdx (dateOf (((sortDescByDate dIdx g).getD 0 []).getD dIdx Val.null) - 13) (dateOf (((sortDescByDate dIdx g).getD 0 []).getD dIdx Val.null) - 7) (sortDescByDate dIdx g) < week_window_total dIdx iIdx (dateOf (((sortDescByDate dIdx g).getD 0 []).getD dIdx Val.null) - 6) (dateOf (((sortDescByDate dIdx g).getD 0 []).getD dIdx Val.null)) (sortDescByDate dIdx g) ∧ weekIncT ≤ incPct (week_window_total dIdx iIdx (dateOf (((sortDescByDate dIdx g).getD 0 []).getD dIdx Val.null) - 13) (dateOf (((sortDescByDate dIdx g).getD 0 []).getD dIdx Val.null) - 7) (sortDescByDate dIdx g)) (week_window_total dIdx iIdx (dateOf (((sortDescByDate dIdx g).getD 0 []).getD dIdx Val.null) - 6) (dateOf (((sortDescByDate dIdx g).getD 0 []).getD dIdx Val.null)) (sortDescByDate dIdx g))
      · exact absurd hB.2.1 (lt_asymm hA.2.1)
      · rw [if_pos hA, if_neg hB]
        simp
    · rw [if_neg hA]
      by_cases hB : 2500 < week_window_total dIdx iIdx (dateOf (((sortDescByDate dIdx g).getD 0 []).getD dIdx Val.null) - 13) (dateOf (((sortDescByDate dIdx g).getD 0 []).getD dIdx Val.null) - 7) (sortDescByDate dIdx g) ∧ week_window_total dIdx iIdx (dateOf (((sortDescByDate dIdx g).getD 0 []).getD dIdx Val.null) - 13) (dateOf (((sortDescByDate dIdx g).getD 0 []).getD dIdx Val.null) - 7) (sortDescByDate dIdx g) < week_window_total dIdx iIdx (dateOf (((sortDescByDate dIdx g).getD 0 []).getD dIdx Val.null) - 6) (dateOf (((sortDescByDate dIdx g).getD 0 []).getD dIdx Val.null)) (sortDescByDate dIdx g) ∧ weekIncT ≤ incPct (week_window_total dIdx iIdx (dateOf (((sortDescByDate dIdx g).getD 0 []).getD dIdx Val.null) - 13) (dateOf (((sortDescByDate dIdx g).getD 0 []).getD dIdx Val.null) - 7) (sortDescByDate dIdx g)) (week_window_total dIdx iIdx (dateOf (((sortDescByDate dIdx g).getD 0 []).getD dIdx Val.null) - 6) (dateOf (((sortDescByDate dIdx g).getD 0 []).getD dIdx Val.null)) (sortDescByDate dIdx g))
      · rw [if_pos hB]
        simp
      · rw [if_neg hB]
        simp
  · rw [tag_alerts_filter_week dIdx tIdx iIdx tagNameIdx? dayT weekT weekIncT g hg
      "week_over_week" (Or.inl rfl), week_filter_drop]
    by_cases hC : 2500 < week_window_total dIdx iIdx (dateOf (((sortDescByDate dIdx g).getD 0 []).getD dIdx Val.null) - 13) (dateOf (((sortDescByDate dIdx g).getD 0 []).getD dIdx Val.null) - 7) (sortDescByDate dIdx g) ∧ weekT ≤ dropPct (week_window_total dIdx iIdx (dateOf (((sortDescByDate dIdx g).getD 0 []).getD dIdx Val.null) - 13) (dateOf (((sortDescByDate dIdx g).getD 0 []).getD dIdx Val.null) - 7) (sortDescByDate dIdx g)) (week_window_total dIdx iIdx (dateOf (((sortDescByDate dIdx g).getD 0 []).getD dIdx Val.null) - 6) (dateOf (((sortDescByDate dIdx g).getD 0 []).getD dIdx Val.null)) (sortDescByDate dIdx g))
    · have h2 := lt_of_le_dropPct _ _ weekT (by linarith [hC.1]) hWT hC.2
      rw [if_pos (And.intro hC.1 (And.intro h2 hC.2)), if_pos hC]
      rfl
    · rw [if_neg (fun h => hC (And.intro h.1 h.2.2)), if_neg hC]
      rfl
  · rw [tag_alerts_filter_week dIdx tIdx iIdx tagNameIdx? dayT weekT weekIncT g hg
      "week_over_week" (Or.inl rfl), week_filter_drop]
    intro a ha
    split_ifs at ha ⊢ <;> first
    | (rw [List.mem_singleton] at ha; subst ha; exact ⟨rfl, rfl, rfl⟩)
    | exact absurd ha (List.not_mem_nil a)

/-- Claim C8, witness: the characterization applied to the concrete two-window
example (8000 trailing against 12000 preceding). -/
theorem C8_week_over_week_witness :
    ((generate_comprehensive_alerts c8rows exCols 35 20 25 101).filter
        (fun a => a.alert_type == "week_over_week")).length = 1 :=
  (C8_week_over_week 0 1 2 none 35 20 25 c8rows
    [[Val.date 100, Val.str "T1", Val.num 4000], [Val.date 95, Val.str "T1", Val.num 4000],
     [Val.date 93, Val.str "T1", Val.num 6000], [Val.date 88, Val.str "T1", Val.num 6000]]
    8000 12000 100 (by decide) (by norm_num)
    (by decide) (by decide)
    (by norm_num [week_window_total, dateOf, orZero, List.filter])
    (by norm_num [week_window_total, dateOf, orZero, List.filter])).2.2.2.1
